import Mathlib

/-!
Verification of the perception-to-action decision loop of the game-bot
repository.  Shallow embedding of:
  * `src/src/detector/yolo_detector.py`  (Detection, YOLODetector)
  * `src/src/strategy/base_strategy.py`  (BaseStrategy, SimpleStrategy)
  * `src/src/controller/game_controller.py` (AndroidController, ControllerManager)
  * `src/main.py`                         (GameBot run loop, _execute_action)

Python floats used only for wall-clock times and Bézier interpolation are
modelled as exact rationals; Python `//` (floor division) is `Int.fdiv`;
Python `int()` (truncation toward zero) is `pyInt` below; `random.randint`
draws are passed as explicit parameters constrained by range hypotheses.
-/

namespace GameBotV

/-- Frames are opaque to the strategy/decision layer (never inspected);
we model them by an arbitrary inhabited type. -/
abbrev Frame := Nat

/-- Bounding box `(x1, y1, x2, y2)` of a detection
(`yolo_detector.py`, `Detection.bbox`). -/
structure BBox where
  x1 : Int
  y1 : Int
  x2 : Int
  y2 : Int
deriving DecidableEq, Repr

/-- `Detection` from `yolo_detector.py` (lines 13-42). -/
structure Detection where
  class_id : Int
  class_name : String
  confidence : Rat
  bbox : BBox
  center : Int × Int
deriving DecidableEq, Repr

/-- Center computation in `YOLODetector._detect_ultralytics`
(lines 200-202): `cx = (x1 + x2) // 2`, `cy = (y1 + y2) // 2`
(Python floor division). -/
def bbox_center (x1 y1 x2 y2 : Int) : Int × Int :=
  ((x1 + x2).fdiv 2, (y1 + y2).fdiv 2)

/-- Game states, `GameState` enum in `base_strategy.py` (lines 14-22). -/
inductive GameState
  | idle
  | menu
  | battle
  | loading
  | reward
  | dialogue
  | unknown
deriving DecidableEq, Repr

/-- `BaseStrategy.get_detections_by_class` (lines 102-108). -/
def get_detections_by_class (detections : List Detection) (cls : String) :
    List Detection :=
  detections.filter fun det => det.class_name == cls

/-- `BaseStrategy.has_detection` (lines 110-112). -/
def has_detection (detections : List Detection) (cls : String) : Bool :=
  detections.any fun det => det.class_name == cls

/-- `SimpleStrategy.state_indicators` (lines 122-127); a Python dict
iterated in insertion order, hence an ordered association list. -/
def state_indicators : List (GameState × List String) :=
  [ (GameState.menu,    ["start_button", "menu_bg"]),
    (GameState.battle,  ["enemy", "hp_bar", "skill_button"]),
    (GameState.reward,  ["reward_icon", "claim_button"]),
    (GameState.loading, ["loading_icon"]) ]

/-- `SimpleStrategy.analyze_state` (lines 129-138): the nested
`for state, indicators ... for indicator ... return state` loops are
the first entry of `state_indicators` one of whose indicators is
detected; `GameState.UNKNOWN` otherwise. -/
def analyze_state (_frame : Frame) (detections : List Detection) : GameState :=
  match state_indicators.find?
      (fun p => p.2.any fun ind => has_detection detections ind) with
  | some p => p.1
  | none => GameState.unknown

/-- Decision dict `{"action": str, "params": dict}` returned by
`make_decision`; params is a flat string-keyed map of ints. -/
structure Decision where
  action : String
  params : List (String × Int)
deriving DecidableEq, Repr

/-- `SimpleStrategy._handle_menu` (lines 163-176). -/
def handle_menu (detections : List Detection) : Decision :=
  match get_detections_by_class detections "start_button" with
  | button :: _ =>
      { action := "tap",
        params := [("x", button.center.1), ("y", button.center.2)] }
  | [] => { action := "wait", params := [] }

/-- `SimpleStrategy._handle_battle` (lines 178-202). -/
def handle_battle (detections : List Detection) : Decision :=
  match get_detections_by_class detections "enemy" with
  | enemy :: _ =>
      { action := "tap",
        params := [("x", enemy.center.1), ("y", enemy.center.2)] }
  | [] =>
      match get_detections_by_class detections "skill_button" with
      | skill :: _ =>
          { action := "tap",
            params := [("x", skill.center.1), ("y", skill.center.2)] }
      | [] => { action := "wait", params := [] }

/-- `SimpleStrategy._handle_reward` (lines 204-217). -/
def handle_reward (detections : List Detection) : Decision :=
  match get_detections_by_class detections "claim_button" with
  | button :: _ =>
      { action := "tap",
        params := [("x", button.center.1), ("y", button.center.2)] }
  | [] => { action := "wait", params := [] }

/-- `SimpleStrategy.make_decision` (lines 140-161). -/
def make_decision (_frame : Frame) (detections : List Detection)
    (state : GameState) : Decision :=
  match state with
  | GameState.menu => handle_menu detections
  | GameState.battle => handle_battle detections
  | GameState.reward => handle_reward detections
  | GameState.loading => { action := "wait", params := [] }
  | _ => { action := "wait", params := [] }

end GameBotV

namespace GameBotV

/-! ### C1: priority order of `analyze_state` -/

/-- Spec-side priority order: the spec names the fixed priority order
`(menu, battle, reward, loading)`. -/
def spec_priority : List GameState :=
  [GameState.menu, GameState.battle, GameState.reward, GameState.loading]

/-- Spec-side indicator vocabulary per state. -/
def spec_indicators : GameState → List String
  | GameState.menu => ["start_button", "menu_bg"]
  | GameState.battle => ["enemy", "hp_bar", "skill_button"]
  | GameState.reward => ["reward_icon", "claim_button"]
  | GameState.loading => ["loading_icon"]
  | _ => []

/-- Spec-side matching condition, following the spec's words: the
state's "configured indicator class names include the class name of
some detection in the list". -/
def spec_state_matches (detections : List Detection) (st : GameState) : Bool :=
  detections.any fun det => (spec_indicators st).contains det.class_name

/-- Modelled from the spec: "the first state in the fixed priority
order (menu, battle, reward, loading) whose configured indicator class
names include the class name of some detection in the list", else
unknown.  Reference function for the refinement claim C1. -/
def spec_first_matching_state (detections : List Detection) : GameState :=
  match spec_priority.filter (fun st => spec_state_matches detections st) with
  | st :: _ => st
  | [] => GameState.unknown

/-- The code's per-state condition (some configured indicator has a
detection) agrees with the spec's (some detection's class is a
configured indicator). -/
lemma any_has_detection_eq (ds : List Detection) (inds : List String) :
    (inds.any fun ind => has_detection ds ind)
      = (ds.any fun det => inds.contains det.class_name) := by
  rw [Bool.eq_iff_iff]
  simp only [has_detection, List.any_eq_true,
    List.contains_eq_any_beq, beq_iff_eq]
  constructor
  · rintro ⟨ind, hind, det, hdet, h⟩
    exact ⟨det, hdet, ind, hind, h⟩
  · rintro ⟨det, hdet, ind, hind, h⟩
    exact ⟨ind, hind, det, hdet, h⟩

end GameBotV

namespace GameBotV

/-- C1: for every list of detections, `analyze_state` of the reference
policy (`SimpleStrategy`) returns the first state in the fixed priority
order (menu, battle, reward, loading) whose configured indicator class
names include the class name of some detection in the list; in
particular, a detection list containing both a "start_button" and an
"enemy" detection resolves to `menu` even though battle's indicators
also match. -/
theorem c1_analyze_state_first_match (frame : Frame) (ds : List Detection) :
    analyze_state frame ds = spec_first_matching_state ds ∧
    ((∃ d ∈ ds, d.class_name = "start_button") →
     (∃ d ∈ ds, d.class_name = "enemy") →
      analyze_state frame ds = GameState.menu) := by
  have hm : (["start_button", "menu_bg"].any fun ind => has_detection ds ind)
      = spec_state_matches ds GameState.menu := any_has_detection_eq ds _
  have hb : (["enemy", "hp_bar", "skill_button"].any fun ind =>
        has_detection ds ind)
      = spec_state_matches ds GameState.battle := any_has_detection_eq ds _
  have hr : (["reward_icon", "claim_button"].any fun ind =>
        has_detection ds ind)
      = spec_state_matches ds GameState.reward := any_has_detection_eq ds _
  have hl : (["loading_icon"].any fun ind => has_detection ds ind)
      = spec_state_matches ds GameState.loading := any_has_detection_eq ds _
  have key : analyze_state frame ds = spec_first_matching_state ds := by
    unfold analyze_state state_indicators spec_first_matching_state
      spec_priority
    cases h1 : spec_state_matches ds GameState.menu <;>
      cases h2 : spec_state_matches ds GameState.battle <;>
        cases h3 : spec_state_matches ds GameState.reward <;>
          cases h4 : spec_state_matches ds GameState.loading <;>
            simp [List.find?, List.filter, hm, hb, hr, hl, h1, h2, h3, h4]
  refine ⟨key, fun hstart _ => ?_⟩
  have hmenu : spec_state_matches ds GameState.menu = true := by
    obtain ⟨d, hd, hname⟩ := hstart
    simp only [spec_state_matches, List.any_eq_true]
    exact ⟨d, hd, by simp [spec_indicators, hname]⟩
  rw [key]
  unfold spec_first_matching_state spec_priority
  simp [List.filter, hmenu]

end GameBotV

namespace GameBotV

/-! ### Policy run-state and the `update` entry point -/

/-- Mutable fields of `BaseStrategy` (`base_strategy.py` lines 28-37).
Wall-clock times are modelled as exact rationals (seconds). -/
structure StrategyState where
  name : String
  current_state : GameState
  frame_count : Nat
  last_action_time : Rat
  action_cooldown : Rat
deriving DecidableEq, Repr

/-- `SimpleStrategy.__init__` via `BaseStrategy.__init__`
(lines 28-37 and 118-119): initial state `UNKNOWN`, zero counters,
`action_cooldown = 0.5`. -/
def SimpleStrategy_init : StrategyState :=
  { name := "SimpleStrategy", current_state := GameState.unknown,
    frame_count := 0, last_action_time := 0, action_cooldown := 1/2 }

/-- `BaseStrategy.update` (lines 73-100), parametric in the abstract
`analyze_state` and `make_decision` methods.  `mk` returns an
`Option Decision`: `none` models a falsy Python return value (`None`
or an empty dict), for which the code skips the timestamp update.
`now` is the value `time.time()` returns during this call. -/
def BaseStrategy_update
    (analyze : Frame → List Detection → GameState)
    (mk : Frame → List Detection → GameState → Option Decision)
    (s : StrategyState) (frame : Frame) (detections : List Detection)
    (now : Rat) : Option Decision × StrategyState :=
  let s1 : StrategyState :=
    { s with frame_count := s.frame_count + 1,
             current_state := analyze frame detections }
  if now - s1.last_action_time < s1.action_cooldown then
    (none, s1)
  else
    match mk frame detections s1.current_state with
    | some decision => (some decision, { s1 with last_action_time := now })
    | none => (none, s1)

/-- `update` as inherited by `SimpleStrategy`: `make_decision` always
returns a non-empty (hence truthy) dict. -/
def SimpleStrategy_update (s : StrategyState) (frame : Frame)
    (detections : List Detection) (now : Rat) :
    Option Decision × StrategyState :=
  BaseStrategy_update analyze_state
    (fun f ds st => some (make_decision f ds st)) s frame detections now

/-- C4: the empty detection list yields `unknown` for every frame, and
`make_decision` in state `unknown` yields the `wait` decision with
empty parameters for every frame and detection list. -/
theorem c4_empty_unknown_wait :
    (∀ frame : Frame, analyze_state frame [] = GameState.unknown) ∧
    (∀ (frame : Frame) (ds : List Detection),
      make_decision frame ds GameState.unknown
        = { action := "wait", params := [] }) :=
  ⟨fun _ => rfl, fun _ _ => rfl⟩

/-- C5: in state `menu`, if the first "start_button" detection carries
bounding box (100, 200, 300, 400) and the detector-derived center
`((x1+x2)//2, (y1+y2)//2) = (200, 300)`, `make_decision` returns a tap
at (200, 300); with no "start_button" detection it returns `wait`. -/
theorem c5_menu_tap_center (frame : Frame) (ds : List Detection) :
    (get_detections_by_class ds "start_button" = [] →
      make_decision frame ds GameState.menu
        = { action := "wait", params := [] }) ∧
    (∀ (d : Detection) (rest : List Detection),
      get_detections_by_class ds "start_button" = d :: rest →
      d.bbox = ⟨100, 200, 300, 400⟩ →
      d.center = bbox_center d.bbox.x1 d.bbox.y1 d.bbox.x2 d.bbox.y2 →
      make_decision frame ds GameState.menu
        = { action := "tap", params := [("x", 200), ("y", 300)] }) := by
  constructor
  · intro h
    simp [make_decision, handle_menu, h]
  · intro d rest h hbbox hcenter
    have hc : d.center = (200, 300) := by
      rw [hcenter, hbbox]
      decide
    simp [make_decision, handle_menu, h, hc]

/-- Witness for C5 at the spec's concrete detection. -/
theorem c5_menu_tap_center_witness :
    (get_detections_by_class
        [⟨0, "start_button", 95/100, ⟨100, 200, 300, 400⟩, (200, 300)⟩]
        "start_button"
      = [⟨0, "start_button", 95/100, ⟨100, 200, 300, 400⟩, (200, 300)⟩]) ∧
    make_decision 0
        [⟨0, "start_button", 95/100, ⟨100, 200, 300, 400⟩, (200, 300)⟩]
        GameState.menu
      = { action := "tap", params := [("x", 200), ("y", 300)] } :=
  ⟨rfl,
    (c5_menu_tap_center 0
      [⟨0, "start_button", 95/100, ⟨100, 200, 300, 400⟩, (200, 300)⟩]).2
      ⟨0, "start_button", 95/100, ⟨100, 200, 300, 400⟩, (200, 300)⟩ []
      rfl rfl rfl⟩

end GameBotV


namespace GameBotV

/-- An `update` call that emits a decision stores `now` as the
last-action timestamp and leaves the cooldown configuration intact. -/
lemma update_emit_state
    (analyze : Frame → List Detection → GameState)
    (mk : Frame → List Detection → GameState → Option Decision)
    (s : StrategyState) (frame : Frame) (ds : List Detection) (now : Rat)
    (d1 : Decision) (s1 : StrategyState)
    (h : BaseStrategy_update analyze mk s frame ds now = (some d1, s1)) :
    s1.last_action_time = now ∧ s1.action_cooldown = s.action_cooldown := by
  unfold BaseStrategy_update at h
  by_cases hc : now - s.last_action_time < s.action_cooldown
  · simp [hc] at h
  · rcases hmk : mk frame ds (analyze frame ds) with _ | d
    · simp [hc, hmk] at h
    · simp only [hc, if_false, hmk] at h
      rw [Prod.mk.injEq] at h
      rw [← h.2]
      exact ⟨rfl, rfl⟩

/-- C2: with `action_cooldown = 0.5` s, if a call to the Policy's
`update` entry point emits a decision at time `t1`, then a second call
less than 0.5 s later returns `None` regardless of what `make_decision`
would produce, while a second call at least 0.5 s later returns a
decision (for the reference policy, whose `make_decision` is total). -/
theorem c2_cooldown_gate
    (analyze : Frame → List Detection → GameState)
    (mk : Frame → List Detection → GameState → Option Decision)
    (s : StrategyState) (f1 f2 : Frame) (ds1 ds2 : List Detection)
    (t1 t2 : Rat) (d1 : Decision) (s1 : StrategyState)
    (hcd : s.action_cooldown = 1/2)
    (h1 : BaseStrategy_update analyze mk s f1 ds1 t1 = (some d1, s1)) :
    (t2 - t1 < 1/2 →
      (BaseStrategy_update analyze mk s1 f2 ds2 t2).1 = none) ∧
    (1/2 ≤ t2 - t1 →
      ∃ d, (SimpleStrategy_update s1 f2 ds2 t2).1 = some d) := by
  obtain ⟨hlast, hcool⟩ :=
    update_emit_state analyze mk s f1 ds1 t1 d1 s1 h1
  constructor
  · intro hlt
    have hc : t2 - s1.last_action_time < s1.action_cooldown := by
      rw [hlast, hcool, hcd]
      exact hlt
    simp [BaseStrategy_update, hc]
  · intro hge
    have hc : ¬(t2 - s1.last_action_time < s1.action_cooldown) := by
      rw [hlast, hcool, hcd]
      exact not_lt.mpr hge
    simp [SimpleStrategy_update, BaseStrategy_update, hc]

/-- Witness for C2: a first call at `t1 = 1` on the freshly initialized
reference policy emits the wait decision; the theorem then applies with
`t2 = 5/4`. -/
theorem c2_cooldown_gate_witness :
    SimpleStrategy_init.action_cooldown = 1/2 ∧
    BaseStrategy_update analyze_state
        (fun f ds st => some (make_decision f ds st))
        SimpleStrategy_init 0 [] 1
      = (some { action := "wait", params := [] },
         { name := "SimpleStrategy", current_state := GameState.unknown,
           frame_count := 1, last_action_time := 1,
           action_cooldown := 1/2 }) ∧
    (((5/4 : Rat) - 1 < 1/2 →
        (BaseStrategy_update analyze_state
          (fun f ds st => some (make_decision f ds st))
          { name := "SimpleStrategy", current_state := GameState.unknown,
            frame_count := 1, last_action_time := 1,
            action_cooldown := 1/2 } 0 [] (5/4)).1 = none) ∧
     ((1/2 : Rat) ≤ (5/4 : Rat) - 1 →
        ∃ d, (SimpleStrategy_update
          { name := "SimpleStrategy", current_state := GameState.unknown,
            frame_count := 1, last_action_time := 1,
            action_cooldown := 1/2 } 0 [] (5/4)).1 = some d)) := by
  have hnot : ¬((1 : Rat) - 0 < 1/2) := by norm_num
  have h1 : BaseStrategy_update analyze_state
      (fun f ds st => some (make_decision f ds st))
      SimpleStrategy_init 0 [] 1
    = (some { action := "wait", params := [] },
       { name := "SimpleStrategy", current_state := GameState.unknown,
         frame_count := 1, last_action_time := 1,
         action_cooldown := 1/2 }) := by
    simp [BaseStrategy_update, SimpleStrategy_init, hnot, make_decision,
      analyze_state, state_indicators, has_detection]
    norm_num
  exact ⟨rfl, h1,
    c2_cooldown_gate analyze_state
      (fun f ds st => some (make_decision f ds st))
      SimpleStrategy_init 0 0 [] [] 1 (5/4) _ _ rfl h1⟩

/-- C3: every `update` call stores the freshly recomputed state from
the current detections (even when the cooldown suppresses the
decision), and a cooldown-suppressed call returns no decision and
leaves the last-action timestamp unchanged. -/
theorem c3_update_recomputes_state
    (analyze : Frame → List Detection → GameState)
    (mk : Frame → List Detection → GameState → Option Decision)
    (s : StrategyState) (frame : Frame) (ds : List Detection) (now : Rat) :
    ((BaseStrategy_update analyze mk s frame ds now).2.current_state
        = analyze frame ds) ∧
    (now - s.last_action_time < s.action_cooldown →
      (BaseStrategy_update analyze mk s frame ds now).1 = none ∧
      (BaseStrategy_update analyze mk s frame ds now).2.last_action_time
        = s.last_action_time) := by
  constructor
  · by_cases hc : now - s.last_action_time < s.action_cooldown
    · simp [BaseStrategy_update, hc]
    · rcases hmk : mk frame ds (analyze frame ds) with _ | d <;>
        simp [BaseStrategy_update, hc, hmk]
  · intro hc
    simp [BaseStrategy_update, hc]

/-- Witness for C3 on a suppressed call: same-instant second call with
timestamp 10 and cooldown 1/2. -/
theorem c3_update_recomputes_state_witness :
    ((BaseStrategy_update analyze_state
        (fun f ds st => some (make_decision f ds st))
        { name := "SimpleStrategy", current_state := GameState.unknown,
          frame_count := 3, last_action_time := 10,
          action_cooldown := 1/2 } 0 [] 10).2.current_state
      = analyze_state 0 []) ∧
    ((10 : Rat) - 10 < 1/2 →
      (BaseStrategy_update analyze_state
        (fun f ds st => some (make_decision f ds st))
        { name := "SimpleStrategy", current_state := GameState.unknown,
          frame_count := 3, last_action_time := 10,
          action_cooldown := 1/2 } 0 [] 10).1 = none ∧
      (BaseStrategy_update analyze_state
        (fun f ds st => some (make_decision f ds st))
        { name := "SimpleStrategy", current_state := GameState.unknown,
          frame_count := 3, last_action_time := 10,
          action_cooldown := 1/2 } 0 [] 10).2.last_action_time = 10) :=
  c3_update_recomputes_state analyze_state
    (fun f ds st => some (make_decision f ds st))
    { name := "SimpleStrategy", current_state := GameState.unknown,
      frame_count := 3, last_action_time := 10,
      action_cooldown := 1/2 } 0 [] 10

/-- Witness for C1 at a detection list containing both a "start_button"
and an "enemy" detection. -/
theorem c1_analyze_state_first_match_witness :
    ((∃ d ∈ [Detection.mk 0 "start_button" 1 ⟨0, 0, 2, 2⟩ (1, 1),
             Detection.mk 1 "enemy" 1 ⟨0, 0, 2, 2⟩ (1, 1)],
        d.class_name = "start_button") ∧
     (∃ d ∈ [Detection.mk 0 "start_button" 1 ⟨0, 0, 2, 2⟩ (1, 1),
             Detection.mk 1 "enemy" 1 ⟨0, 0, 2, 2⟩ (1, 1)],
        d.class_name = "enemy")) ∧
    analyze_state 0
        [Detection.mk 0 "start_button" 1 ⟨0, 0, 2, 2⟩ (1, 1),
         Detection.mk 1 "enemy" 1 ⟨0, 0, 2, 2⟩ (1, 1)]
      = GameState.menu :=
  ⟨⟨⟨_, List.mem_cons_self .., rfl⟩,
    ⟨_, List.mem_cons_of_mem _ (List.mem_cons_self ..), rfl⟩⟩,
   (c1_analyze_state_first_match 0
      [Detection.mk 0 "start_button" 1 ⟨0, 0, 2, 2⟩ (1, 1),
       Detection.mk 1 "enemy" 1 ⟨0, 0, 2, 2⟩ (1, 1)]).2
     ⟨_, List.mem_cons_self .., rfl⟩
     ⟨_, List.mem_cons_of_mem _ (List.mem_cons_self ..), rfl⟩⟩

end GameBotV

namespace GameBotV

/-! ### Controller: randomized tap and smooth swipe
(`game_controller.py`) -/

/-- `AndroidController.tap` (lines 63-81): before dispatching, adds a
humanization offset drawn by `random.randint(-2, 2)` on each axis, then
calls `device.click` at the offset point.  Returns the coordinates the
underlying driver receives. -/
def AndroidController_tap_click (x y x_offset y_offset : Int) : Int × Int :=
  (x + x_offset, y + y_offset)

/-- `ControllerManager.tap_random` (lines 242-253): adds an offset
drawn by `random.randint(-radius, radius)` on each axis and delegates
to `tap`, which (on Android) adds its own `randint(-2, 2)` offset.
`offset_x, offset_y` are the `tap_random` draws, `tap_dx, tap_dy` the
inner `tap` draws; the result is what reaches `device.click`. -/
def ControllerManager_tap_random_click
    (x y _radius offset_x offset_y tap_dx tap_dy : Int) : Int × Int :=
  AndroidController_tap_click (x + offset_x) (y + offset_y) tap_dx tap_dy

/-- Counterexample to C6 as stated: with `radius = 5`, draws
`offset = (5, 5)` (within `[-radius, radius]`) and inner tap draws
`(2, 2)` (within `[-2, 2]`), a tap targeting (30, 30) reaches the
driver at (37, 37), outside (30 ± 5, 30 ± 5). -/
theorem c6_tap_random_counterexample :
    ((-5 : Int) ≤ 5 ∧ (5 : Int) ≤ 5) ∧
    ((-2 : Int) ≤ 2 ∧ (2 : Int) ≤ 2) ∧
    ControllerManager_tap_random_click 30 30 5 5 5 2 2 = (37, 37) ∧
    ¬(30 - 5 ≤ (ControllerManager_tap_random_click 30 30 5 5 5 2 2).1 ∧
      (ControllerManager_tap_random_click 30 30 5 5 5 2 2).1 ≤ 30 + 5) := by
  decide

/-- C6 (amended): `tap_random` passes the actuator's `tap` a target
within `(x ± radius, y ± radius)`, and the inner `tap` adds a further
offset within ±2, so for every outcome of the draws the coordinates
reaching the driver lie within `(x ± (radius + 2), y ± (radius + 2))`. -/
theorem c6_tap_random_bounds
    (x y radius offset_x offset_y tap_dx tap_dy : Int)
    (hx1 : -radius ≤ offset_x) (hx2 : offset_x ≤ radius)
    (hy1 : -radius ≤ offset_y) (hy2 : offset_y ≤ radius)
    (ht1 : -2 ≤ tap_dx) (ht2 : tap_dx ≤ 2)
    (ht3 : -2 ≤ tap_dy) (ht4 : tap_dy ≤ 2) :
    (x - radius ≤ x + offset_x ∧ x + offset_x ≤ x + radius ∧
     y - radius ≤ y + offset_y ∧ y + offset_y ≤ y + radius) ∧
    (x - (radius + 2)
        ≤ (ControllerManager_tap_random_click x y radius offset_x offset_y
            tap_dx tap_dy).1 ∧
     (ControllerManager_tap_random_click x y radius offset_x offset_y
        tap_dx tap_dy).1 ≤ x + (radius + 2) ∧
     y - (radius + 2)
        ≤ (ControllerManager_tap_random_click x y radius offset_x offset_y
            tap_dx tap_dy).2 ∧
     (ControllerManager_tap_random_click x y radius offset_x offset_y
        tap_dx tap_dy).2 ≤ y + (radius + 2)) := by
  unfold ControllerManager_tap_random_click AndroidController_tap_click
  dsimp only
  omega

/-- Witness for the amended C6 at target (30, 30), radius 5,
draws (5, 5) and (2, 2). -/
theorem c6_tap_random_bounds_witness :
    (((-5 : Int) ≤ 5 ∧ (5 : Int) ≤ 5) ∧ ((-2 : Int) ≤ 2 ∧ (2 : Int) ≤ 2)) ∧
    ((30 - 5 ≤ (30 : Int) + 5 ∧ (30 : Int) + 5 ≤ 30 + 5 ∧
      30 - 5 ≤ (30 : Int) + 5 ∧ (30 : Int) + 5 ≤ 30 + 5) ∧
     (30 - (5 + 2)
        ≤ (ControllerManager_tap_random_click 30 30 5 5 5 2 2).1 ∧
      (ControllerManager_tap_random_click 30 30 5 5 5 2 2).1 ≤ 30 + (5 + 2) ∧
      30 - (5 + 2)
        ≤ (ControllerManager_tap_random_click 30 30 5 5 5 2 2).2 ∧
      (ControllerManager_tap_random_click 30 30 5 5 5 2 2).2
        ≤ 30 + (5 + 2))) :=
  ⟨⟨⟨by decide, by decide⟩, ⟨by decide, by decide⟩⟩,
   c6_tap_random_bounds 30 30 5 5 5 2 2 (by decide) (by decide) (by decide)
     (by decide) (by decide) (by decide) (by decide) (by decide)⟩

end GameBotV

namespace GameBotV

/-- Python `int()` applied to a rational value: truncation toward
zero. -/
def pyInt (q : Rat) : Int := if 0 ≤ q then ⌊q⌋ else ⌈q⌉

/-- Truncation toward zero is monotone. -/
lemma pyInt_mono {a b : Rat} (h : a ≤ b) : pyInt a ≤ pyInt b := by
  unfold pyInt
  split <;> split
  · exact Int.floor_le_floor h
  · rename_i h1 h2
    exact absurd (h1.trans h) h2
  · rename_i h1 h2
    refine le_trans (Int.ceil_le.mpr ?_) (Int.floor_nonneg.mpr h2)
    exact_mod_cast le_of_not_le h1
  · exact Int.ceil_le_ceil h

/-- Quadratic Bézier interpolation point of
`AndroidController.swipe_smooth` (lines 146-152): at `t = i / steps`,
`x = (1-t)^2*start_x + 2*(1-t)*t*control_x + t^2*end_x` (same for y),
then `int(...)` truncation. -/
def bezier_point (start_x start_y end_x end_y control_x control_y : Rat)
    (steps i : Nat) : Int × Int :=
  let t : Rat := (i : Rat) / (steps : Rat)
  let x := (1 - t) ^ 2 * start_x + 2 * (1 - t) * t * control_x
             + t ^ 2 * end_x
  let y := (1 - t) ^ 2 * start_y + 2 * (1 - t) * t * control_y
             + t ^ 2 * end_y
  (pyInt x, pyInt y)

/-- The interpolated path points of `AndroidController.swipe_smooth`
(lines 123-162): control point at the segment midpoint plus a
`random.randint(-50, 50)` offset per axis (`rand_x, rand_y`), sampled
for `i in range(steps + 1)`. -/
def swipe_smooth_points (start_x start_y end_x end_y : Rat)
    (rand_x rand_y : Int) (steps : Nat) : List (Int × Int) :=
  let control_x : Rat := (start_x + end_x) / 2 + rand_x
  let control_y : Rat := (start_y + end_y) / 2 + rand_y
  (List.range (steps + 1)).map
    (bezier_point start_x start_y end_x end_y control_x control_y steps)

/-- C7: for the smooth swipe from (0,0) to (100,0) with `steps = 20`,
every outcome of the random control-point offset yields a path whose
x-coordinates are monotonically non-decreasing. -/
theorem c7_smooth_swipe_monotone_x
    (rand_x rand_y : Int) (h1 : -50 ≤ rand_x) (h2 : rand_x ≤ 50) :
    (swipe_smooth_points 0 0 100 0 rand_x rand_y 20).Chain'
      (fun p q => p.1 ≤ q.1) := by
  have hq1 : (-50 : Rat) ≤ (rand_x : Rat) := by exact_mod_cast h1
  have hq2 : ((rand_x : Rat)) ≤ 50 := by exact_mod_cast h2
  unfold swipe_smooth_points
  rw [List.chain'_map, List.chain'_range_succ]
  intro m hm
  simp only [bezier_point]
  apply pyInt_mono
  interval_cases m <;> (push_cast; norm_num) <;> nlinarith [hq1, hq2]

/-- Witness for C7 at the control-point offset (7, -3). -/
theorem c7_smooth_swipe_monotone_x_witness :
    ((-50 : Int) ≤ 7 ∧ (7 : Int) ≤ 50) ∧
    (swipe_smooth_points 0 0 100 0 7 (-3) 20).Chain'
      (fun p q => p.1 ≤ q.1) :=
  ⟨⟨by decide, by decide⟩,
   c7_smooth_swipe_monotone_x 7 (-3) (by decide) (by decide)⟩

end GameBotV


namespace GameBotV

/-! ### Detector construction and invocation (`yolo_detector.py`) -/

/-- Python `str.lower()` (ASCII case folding as used for file
suffixes), character by character. -/
def py_lower (s : String) : String := String.mk (s.data.map Char.toLower)

/-- Model backend selected by `_detect_model_type`. -/
inductive ModelType
  | ultralytics
  | onnx
deriving DecidableEq, Repr

/-- Errors raised during `YOLODetector` construction:
`ValueError` for an unsupported suffix (`_detect_model_type`,
lines 75-83) and `FileNotFoundError` for a missing model file
(`_load_model`, lines 85-88). -/
inductive DetectorInitError
  | unsupported_format (suffix : String)
  | model_file_missing
deriving DecidableEq, Repr

/-- `YOLODetector._detect_model_type` (lines 75-83): dispatch on the
lower-cased path suffix. -/
def detect_model_type (suffix : String) : Except DetectorInitError ModelType :=
  let s := py_lower suffix
  if s = ".pt" then Except.ok ModelType.ultralytics
  else if s = ".onnx" then Except.ok ModelType.onnx
  else Except.error (DetectorInitError.unsupported_format s)

/-- Detector object state after construction: model loading itself is
an external framework call, recorded here only as the fact that
`self.model` is no longer `None`. -/
structure YOLODetector where
  model_type : ModelType
  model_loaded : Bool
  conf_threshold : Rat
  iou_threshold : Rat
deriving DecidableEq, Repr

/-- `YOLODetector.__init__` (lines 48-73): determines the model type
from the suffix (raising on an unsupported format), then `_load_model`
raises if the file is missing and otherwise loads the model.
`file_exists` abstracts `self.model_path.exists()`. -/
def YOLODetector_init (suffix : String) (file_exists : Bool)
    (conf iou : Rat) : Except DetectorInitError YOLODetector :=
  match detect_model_type suffix with
  | Except.error e => Except.error e
  | Except.ok mt =>
      if file_exists then
        Except.ok { model_type := mt, model_loaded := true,
                    conf_threshold := conf, iou_threshold := iou }
      else
        Except.error DetectorInitError.model_file_missing

/-- Error raised by `YOLODetector.detect` (lines 161-162) when
`self.model is None`. -/
inductive DetectError
  | model_not_loaded
deriving DecidableEq, Repr

/-- `YOLODetector.detect` (lines 146-167): raises `RuntimeError` when
no model is loaded, otherwise returns the backend inference results
(the external model call is abstracted by its output list). -/
def YOLODetector_detect (d : YOLODetector)
    (model_output : List Detection) : Except DetectError (List Detection) :=
  if d.model_loaded then Except.ok model_output
  else Except.error DetectError.model_not_loaded

/-- C9: construction fails on a suffix that is neither `.pt` nor
`.onnx` and on a missing model file; `detect` fails when no model is
loaded; construction with an existing `.pt` or `.onnx` path succeeds
and loads the model. -/
theorem c9_detector_errors (suffix : String) (file_exists : Bool)
    (conf iou : Rat) :
    (py_lower suffix ≠ ".pt" → py_lower suffix ≠ ".onnx" →
      YOLODetector_init suffix file_exists conf iou
        = Except.error (DetectorInitError.unsupported_format
            (py_lower suffix))) ∧
    (file_exists = false →
      (py_lower suffix = ".pt" ∨ py_lower suffix = ".onnx") →
      YOLODetector_init suffix file_exists conf iou
        = Except.error DetectorInitError.model_file_missing) ∧
    (∀ (d : YOLODetector) (out : List Detection), d.model_loaded = false →
      YOLODetector_detect d out = Except.error DetectError.model_not_loaded) ∧
    (file_exists = true →
      (py_lower suffix = ".pt" ∨ py_lower suffix = ".onnx") →
      ∃ det : YOLODetector,
        YOLODetector_init suffix file_exists conf iou = Except.ok det ∧
        det.model_loaded = true) := by
  refine ⟨fun hpt honnx => ?_, fun hex hfmt => ?_,
    fun d out hnl => ?_, fun hex hfmt => ?_⟩
  · simp [YOLODetector_init, detect_model_type, hpt, honnx]
  · subst hex
    rcases hfmt with h | h <;>
      simp [YOLODetector_init, detect_model_type, h]
  · simp [YOLODetector_detect, hnl]
  · subst hex
    rcases hfmt with h | h
    · exact ⟨{ model_type := ModelType.ultralytics, model_loaded := true,
               conf_threshold := conf, iou_threshold := iou },
             by simp [YOLODetector_init, detect_model_type, h], rfl⟩
    · exact ⟨{ model_type := ModelType.onnx, model_loaded := true,
               conf_threshold := conf, iou_threshold := iou },
             by simp [YOLODetector_init, detect_model_type, h], rfl⟩

/-- Witness for C9 on concrete paths: suffix ".txt" rejected, missing
".pt" file rejected, unloaded detector rejected, existing ".pt"
loaded. -/
theorem c9_detector_errors_witness :
    (py_lower ".txt" ≠ ".pt" ∧ py_lower ".txt" ≠ ".onnx" ∧
      YOLODetector_init ".txt" true 1 1
        = Except.error (DetectorInitError.unsupported_format
            (py_lower ".txt"))) ∧
    YOLODetector_init ".pt" false 1 1
      = Except.error DetectorInitError.model_file_missing ∧
    YOLODetector_detect
        { model_type := ModelType.ultralytics, model_loaded := false,
          conf_threshold := 1, iou_threshold := 1 } []
      = Except.error DetectError.model_not_loaded ∧
    (∃ det : YOLODetector,
      YOLODetector_init ".pt" true 1 1 = Except.ok det ∧
      det.model_loaded = true) :=
  ⟨⟨by decide, by decide,
    (c9_detector_errors ".txt" true 1 1).1 (by decide) (by decide)⟩,
   (c9_detector_errors ".pt" false 1 1).2.1 rfl (Or.inl (by decide)),
   (c9_detector_errors ".pt" true 1 1).2.2.1
     { model_type := ModelType.ultralytics, model_loaded := false,
       conf_threshold := 1, iou_threshold := 1 } [] rfl,
   (c9_detector_errors ".pt" true 1 1).2.2.2 rfl (Or.inl (by decide))⟩

end GameBotV

namespace GameBotV

/-! ### Orchestrator loop (`main.py`) -/

/-- Outcome of `GameBot._execute_action` (`main.py` lines 208-233):
a tap or swipe dispatched to the controller, a no-op (for `wait`, or
for a tap/swipe with a missing required parameter, which the code
silently skips), or the unknown-action warning branch. -/
inductive ExecOutcome
  | tapped (x y : Int)
  | swiped (sx sy ex ey : Int)
  | no_op
  | warned_unknown
deriving DecidableEq, Repr

/-- `GameBot._execute_action` (`main.py` lines 208-233). -/
def execute_action (decision : Decision) : ExecOutcome :=
  if decision.action = "tap" then
    match decision.params.lookup "x", decision.params.lookup "y" with
    | some x, some y => ExecOutcome.tapped x y
    | _, _ => ExecOutcome.no_op
  else if decision.action = "swipe" then
    match decision.params.lookup "start_x", decision.params.lookup "start_y",
          decision.params.lookup "end_x", decision.params.lookup "end_y" with
    | some a, some b, some c, some d => ExecOutcome.swiped a b c d
    | _, _, _, _ => ExecOutcome.no_op
  else if decision.action = "wait" then ExecOutcome.no_op
  else ExecOutcome.warned_unknown

/-- Orchestrator state that persists across loop iterations
(`GameBot.frame_count` and the strategy's run-state). -/
structure BotState where
  frame_count : Nat
  strategy : StrategyState
deriving DecidableEq, Repr

/-- Observable effects of one iteration of `GameBot.run`'s `while`
body (`main.py` lines 131-200); visualization, screenshot persistence
and logging are display and diagnostic only and elided. -/
structure IterEffects where
  warned_null_frame : Bool
  slept_half_second : Bool
  detector_ran : Bool
  strategy_updated : Bool
  outcome : ExecOutcome
  dispatched : Bool
  loop_continues : Bool
deriving DecidableEq, Repr

/-- One iteration of the `while self.is_running` body of `GameBot.run`
(`main.py` lines 131-200): a null frame logs a warning, sleeps 0.5 s
and `continue`s before the detector, strategy, dispatch and the
`frame_count` increment; otherwise detection, `strategy.update`,
optional dispatch, and `self.frame_count += 1` run in order.
`detect` abstracts `self.detector.detect` and `now` the wall clock. -/
def run_iteration (bot : BotState) (frame_opt : Option Frame)
    (detect : Frame → List Detection) (now : Rat) :
    IterEffects × BotState :=
  match frame_opt with
  | none =>
      ({ warned_null_frame := true, slept_half_second := true,
         detector_ran := false, strategy_updated := false,
         outcome := ExecOutcome.no_op, dispatched := false,
         loop_continues := true }, bot)
  | some frame =>
      let detections := detect frame
      let r := SimpleStrategy_update bot.strategy frame detections now
      let outcome := match r.1 with
        | some decision => execute_action decision
        | none => ExecOutcome.no_op
      ({ warned_null_frame := false, slept_half_second := false,
         detector_ran := true, strategy_updated := true,
         outcome := outcome,
         dispatched := match outcome with
           | ExecOutcome.tapped _ _ => true
           | ExecOutcome.swiped _ _ _ _ => true
           | _ => false,
         loop_continues := true },
       { frame_count := bot.frame_count + 1, strategy := r.2 })

/-- C8: an iteration whose frame fetch returns a null frame logs a
warning, sleeps 0.5 s and continues to the next iteration without
running the detector, updating the policy, dispatching an action or
incrementing the frame counter; the bot state is unchanged and the
loop does not terminate. -/
theorem c8_null_frame_skips_iteration (bot : BotState)
    (detect : Frame → List Detection) (now : Rat) :
    run_iteration bot none detect now
      = ({ warned_null_frame := true, slept_half_second := true,
           detector_ran := false, strategy_updated := false,
           outcome := ExecOutcome.no_op, dispatched := false,
           loop_continues := true }, bot) :=
  rfl

/-- C10: for every frame, detection list and state, the reference
policy's `make_decision` returns a decision whose action is "tap" or
"wait"; every "tap" decision carries both `x` and `y` parameters; and
`GameBot._execute_action` never reaches its unknown-action warning
branch on such a decision. -/
theorem c10_decision_action_invariant (frame : Frame)
    (ds : List Detection) (st : GameState) :
    ((make_decision frame ds st).action = "tap" ∨
     (make_decision frame ds st).action = "wait") ∧
    ((make_decision frame ds st).action = "tap" →
      ((make_decision frame ds st).params.lookup "x").isSome ∧
      ((make_decision frame ds st).params.lookup "y").isSome) ∧
    execute_action (make_decision frame ds st) ≠ ExecOutcome.warned_unknown := by
  cases st <;>
    simp only [make_decision, handle_menu, handle_battle, handle_reward]
  case menu =>
    rcases h : get_detections_by_class ds "start_button" with _ | ⟨b, rest⟩ <;>
      simp [execute_action, List.lookup]
  case battle =>
    rcases h1 : get_detections_by_class ds "enemy" with _ | ⟨e, rest⟩
    · rcases h2 : get_detections_by_class ds "skill_button" with _ | ⟨k, rest⟩ <;>
        simp [execute_action, List.lookup]
    · simp [execute_action, List.lookup]
  case reward =>
    rcases h : get_detections_by_class ds "claim_button" with _ | ⟨b, rest⟩ <;>
      simp [execute_action, List.lookup]
  all_goals simp [execute_action, List.lookup]

/-- Witness for C10 at the empty detection list in state `unknown`. -/
theorem c10_decision_action_invariant_witness :
    ((make_decision 0 [] GameState.unknown).action = "tap" ∨
     (make_decision 0 [] GameState.unknown).action = "wait") ∧
    ((make_decision 0 [] GameState.unknown).action = "tap" →
      ((make_decision 0 [] GameState.unknown).params.lookup "x").isSome ∧
      ((make_decision 0 [] GameState.unknown).params.lookup "y").isSome) ∧
    execute_action (make_decision 0 [] GameState.unknown)
      ≠ ExecOutcome.warned_unknown :=
  c10_decision_action_invariant 0 [] GameState.unknown

end GameBotV
